import Mathlib

/-
  Verification development for the Chat_BotPy conversation controller
  (backend/app/controllers/conversation_controller.py).

  The controller is embedded as pure Lean functions.  Injected collaborators
  (conversation repository, AI service, scoring service, recommendation
  service, course repository) are modelled as records of functions; side
  effects are made explicit: each controller operation returns its result
  together with the resulting conversation store and a list of the external
  calls it performed, in order.
-/

namespace ChatBot

/-- Modelled from the spec: the record of bounded quality metrics returned by
the Analysis Capability (the `models` and `services` modules are not among the
sources; the fields follow the controller's accesses
`analysis_data['grammar']`, `['vocabulary']`, `['naturalness']`). -/
structure AnalysisData where
  grammar : Int
  vocabulary : Int
  naturalness : Int
deriving Repr, DecidableEq

/-- Modelled from the spec: the `MessageAnalysis` value type — three quality
metrics plus the optional client-supplied response time carried through from
the message, exactly the fields the controller constructs it with. -/
structure MessageAnalysis where
  grammar : Int
  vocabulary : Int
  naturalness : Int
  response_time : Option Int
deriving Repr, DecidableEq

/-- Modelled from the spec: a Score is an aggregate numeric value computed by
the Scoring Engine; the controller treats it opaquely, so a single numeric
value suffices. -/
abbrev Score := Int

/-- Modelled from the spec: a Message has a role ("user" or "assistant"),
text content, a creation timestamp, and an optional analysis (present only
for user messages). -/
structure Message where
  role : String
  content : String
  timestamp : Nat
  analysis : Option MessageAnalysis := none
deriving Repr, DecidableEq

/-- Modelled from the spec: a Recommendation references a course id and
carries a relevance weight; the controller reads only `course_id` and
serialises the rest via `to_dict`. -/
structure Recommendation where
  course_id : String
  weight : Int
deriving Repr, DecidableEq

/-- Modelled from the spec: a Course from the course catalog, tagged with a
level; the controller only forwards it (serialised) in the joined result. -/
structure Course where
  id : String
  level : String
  title : String
deriving Repr, DecidableEq

/-- Modelled from the spec: the Conversation aggregate — owning user, topic,
proficiency level, append-only message sequence, optional current aggregate
score, and an accumulating recommendation sequence. -/
structure Conversation where
  user_id : String
  topic : String
  level : String
  messages : List Message := []
  score : Option Score := none
  recommendations : List Recommendation := []
deriving Repr, DecidableEq

/-- Modelled from the spec: `Conversation.add_message` appends one message to
the end of the (append-only, conversational-order) message sequence. -/
def Conversation.add_message (c : Conversation) (m : Message) : Conversation :=
  { c with messages := c.messages ++ [m] }

/-- Modelled from the spec: `Conversation.get_chat_history` is the ordered
list of (role, content) pairs for every message so far. -/
def Conversation.get_chat_history (c : Conversation) : List (String × String) :=
  c.messages.map (fun m => (m.role, m.content))

/-- Modelled from the spec: `Conversation.update_score` replaces the
conversation's current aggregate score wholesale. -/
def Conversation.update_score (c : Conversation) (s : Score) : Conversation :=
  { c with score := some s }

/-- Modelled from the spec: `Conversation.add_recommendations` appends (never
replaces) the generated recommendations to the conversation's sequence. -/
def Conversation.add_recommendations (c : Conversation) (rs : List Recommendation) :
    Conversation :=
  { c with recommendations := c.recommendations ++ rs }

/-- Errors a controller call can surface: `valueError` models Python's
`ValueError` (raised by the controller for an absent conversation),
`attributeError` models an `AttributeError` on an unassigned attribute, and
`capabilityFailure` models an exception propagated from an external
capability. -/
inductive PyError where
  | valueError (msg : String)
  | attributeError (attr : String)
  | capabilityFailure (msg : String)
deriving Repr, DecidableEq

/-- One external call performed by a controller operation, recorded in
program order. -/
inductive Event where
  | findById (id : String)
  | analyzeCall (text level : String)
  | chatCall (history : List (String × String)) (topic level : String)
  | storeUpdate (id : String)
  | findByLevel (level : String)
  | genRecsCall
  | courseFindById (id : String)
  | findByUserId (user_id : String) (skip limit : Int)
deriving Repr, DecidableEq

/-- The durable contents of the Conversation Store, keyed by conversation
id. -/
abbrev Store := List (String × Conversation)

/-- Modelled from the spec: `findById` on the Conversation Store returns the
conversation stored at the id, or absent. -/
def store_find (s : Store) (id : String) : Option Conversation :=
  (s.find? (fun p => p.1 == id)).map (fun p => p.2)

/-- Modelled from the spec: `update(id, conversation)` on the Conversation
Store replaces the entry at the id. -/
def store_update (s : Store) (id : String) (c : Conversation) : Store :=
  s.map (fun p => if p.1 == id then (p.1, c) else p)

/-- Modelled from the spec: the Conversation Store collaborator: its durable
contents plus the store-computed paginated `find_by_user_id` query. -/
structure ConversationRepository where
  store : Store
  find_by_user_id : String → Int → Int → List Conversation

/-- Modelled from the spec: the AI service collaborator (`IAIService`):
`analyze_message(text, level)` and `chat(history, topic, level)`, each of
which may fail. -/
structure IAIService where
  analyze_message : String → String → Except PyError AnalysisData
  chat : List (String × String) → String → String → Except PyError String

/-- Modelled from the spec: the Scoring Engine collaborator; a pure function
folding a message sequence into one aggregate score. -/
structure ScoringService where
  calculate_overall_score : List Message → Score

/-- Modelled from the spec: the Recommendation Engine collaborator; a pure
function from a conversation and candidate courses to recommendations. -/
structure RecommendationService where
  generate_recommendations : Conversation → List Course → List Recommendation

/-- Modelled from the spec: the course catalog collaborator with
`find_by_level` and `find_by_id`. -/
structure CourseRepository where
  find_by_level : String → List Course
  find_by_id : String → Option Course

/-- The controller's attribute state.  `course_repo` is an `Option` because
Python attributes exist only once assigned: `none` models the attribute never
having been set, so that reading it raises `AttributeError`. -/
structure ConversationController where
  conversation_repo : ConversationRepository
  ai_service : IAIService
  scoring_service : ScoringService
  recommendation_service : RecommendationService
  course_repo : Option CourseRepository

/-- Embeds `ConversationController.__init__` (conversation_controller.py,
lines 22–34): it assigns exactly `conversation_repo`, `ai_service`,
`scoring_service` and `recommendation_service`; no course-repository
attribute is ever assigned, hence `course_repo := none`. -/
def ConversationController.init (conversation_repo : ConversationRepository)
    (ai_service : IAIService) (scoring_service : ScoringService)
    (recommendation_service : RecommendationService) : ConversationController :=
  { conversation_repo := conversation_repo
    ai_service := ai_service
    scoring_service := scoring_service
    recommendation_service := recommendation_service
    course_repo := none }

/-- The user message `send_message` constructs: role "user", the incoming
content, the current time, and the analysis wrapping the capability's metrics
together with the optional response time. -/
def user_message_of (content : String) (d : AnalysisData) (response_time : Option Int)
    (t : Nat) : Message :=
  { role := "user"
    content := content
    timestamp := t
    analysis := some { grammar := d.grammar, vocabulary := d.vocabulary,
                       naturalness := d.naturalness, response_time := response_time } }

/-- The assistant message `send_message` constructs: role "assistant", the
dialogue capability's reply, the current time, no analysis. -/
def ai_message_of (content : String) (t : Nat) : Message :=
  { role := "assistant", content := content, timestamp := t, analysis := none }

/-- The result dictionary `send_message` returns: the user message, the
assistant message and the new overall score. -/
structure TurnResult where
  user_message : Message
  ai_message : Message
  overall_score : Score
deriving Repr, DecidableEq

/-- Embeds `ConversationController.send_message` (conversation_controller.py,
lines 61–141).  The two `datetime.utcnow()` readings are passed in as
`t_user` and `t_ai`.  Returns the result (or the propagated error), the
resulting store contents, and the ordered list of external calls made. -/
def send_message (self : ConversationController) (conversation_id : String)
    (message_content : String) (response_time : Option Int) (t_user t_ai : Nat) :
    Except PyError TurnResult × Store × List Event :=
  match store_find self.conversation_repo.store conversation_id with
  | none =>
      (.error (.valueError ("Conversation " ++ conversation_id ++ " not found")),
       self.conversation_repo.store,
       [Event.findById conversation_id])
  | some conversation =>
      match self.ai_service.analyze_message message_content conversation.level with
      | .error e =>
          (.error e, self.conversation_repo.store,
           [Event.findById conversation_id,
            Event.analyzeCall message_content conversation.level])
      | .ok analysis_data =>
          let user_message := user_message_of message_content analysis_data
            response_time t_user
          let conv1 := conversation.add_message user_message
          let chat_history := conv1.get_chat_history
          match self.ai_service.chat chat_history conversation.topic conversation.level with
          | .error e =>
              (.error e, self.conversation_repo.store,
               [Event.findById conversation_id,
                Event.analyzeCall message_content conversation.level,
                Event.chatCall chat_history conversation.topic conversation.level])
          | .ok ai_response =>
              let ai_message := ai_message_of ai_response t_ai
              let conv2 := conv1.add_message ai_message
              let new_score := self.scoring_service.calculate_overall_score conv2.messages
              let conv3 := conv2.update_score new_score
              (.ok { user_message := user_message, ai_message := ai_message,
                     overall_score := new_score },
               store_update self.conversation_repo.store conversation_id conv3,
               [Event.findById conversation_id,
                Event.analyzeCall message_content conversation.level,
                Event.chatCall chat_history conversation.topic conversation.level,
                Event.storeUpdate conversation_id])

/-- Embeds `ConversationController.get_conversation` (lines 143–147). -/
def get_conversation (self : ConversationController) (conversation_id : String) :
    Option Conversation × List Event :=
  (store_find self.conversation_repo.store conversation_id,
   [Event.findById conversation_id])

/-- Embeds `ConversationController.get_user_conversations` (lines 149–160):
a direct passthrough to the repository's `find_by_user_id` with no argument
validation; the method body cannot raise, so the result is always `ok`. -/
def get_user_conversations (self : ConversationController) (user_id : String)
    (skip limit : Int) : Except PyError (List Conversation) × List Event :=
  (.ok (self.conversation_repo.find_by_user_id user_id skip limit),
   [Event.findByUserId user_id skip limit])

/-- One entry of the joined result of `get_recommendations`: the
recommendation's serialised fields plus the (possibly absent) course
details. -/
structure DetailedRecommendation where
  course_id : String
  weight : Int
  course : Option Course
deriving Repr, DecidableEq

/-- Embeds `ConversationController.get_recommendations` (lines 162–198).
Reading `self.course_repo` when the attribute was never assigned raises
`AttributeError` (the `none` branch), which in the source happens at the
`self.course_repo.find_by_level` call, before the recommendation service and
before any store write. -/
def get_recommendations (self : ConversationController) (conversation_id : String) :
    Except PyError (List DetailedRecommendation) × Store × List Event :=
  match store_find self.conversation_repo.store conversation_id with
  | none =>
      (.error (.valueError ("Conversation " ++ conversation_id ++ " not found")),
       self.conversation_repo.store,
       [Event.findById conversation_id])
  | some conversation =>
      match self.course_repo with
      | none =>
          (.error (.attributeError "course_repo"),
           self.conversation_repo.store,
           [Event.findById conversation_id])
      | some course_repo =>
          let courses := course_repo.find_by_level conversation.level
          let recommendations :=
            self.recommendation_service.generate_recommendations conversation courses
          let conv2 := conversation.add_recommendations recommendations
          let detailed := recommendations.map (fun r =>
            { course_id := r.course_id, weight := r.weight,
              course := course_repo.find_by_id r.course_id : DetailedRecommendation })
          (.ok detailed,
           store_update self.conversation_repo.store conversation_id conv2,
           [Event.findById conversation_id,
            Event.findByLevel conversation.level,
            Event.genRecsCall,
            Event.storeUpdate conversation_id]
             ++ recommendations.map (fun r => Event.courseFindById r.course_id))

/-- Counts the store-write (`update`) calls in a trace. -/
def count_store_updates (evs : List Event) : Nat :=
  (evs.filter (fun e => match e with | Event.storeUpdate _ => true | _ => false)).length

/-- Counts the Analysis Capability calls in a trace. -/
def count_analyze_calls (evs : List Event) : Nat :=
  (evs.filter (fun e => match e with | Event.analyzeCall _ _ => true | _ => false)).length

/-- Counts the Dialogue Capability calls in a trace. -/
def count_chat_calls (evs : List Event) : Nat :=
  (evs.filter (fun e => match e with | Event.chatCall _ _ _ => true | _ => false)).length

/-- Counts the store-read (`find_by_id`) calls in a trace. -/
def count_find_by_id (evs : List Event) : Nat :=
  (evs.filter (fun e => match e with | Event.findById _ => true | _ => false)).length

/-- Counts the Recommendation Engine calls in a trace. -/
def count_gen_recs (evs : List Event) : Nat :=
  (evs.filter (fun e => match e with | Event.genRecsCall => true | _ => false)).length

/-- A concrete conversation (stored under id "c1") for exercising the
theorems on closed inputs. -/
def convW : Conversation :=
  { user_id := "u1", topic := "travel", level := "N5" }

/-- A concrete analysis result returned by the concrete AI service. -/
def analysisW : AnalysisData :=
  { grammar := 80, vocabulary := 70, naturalness := 90 }

/-- A concrete AI service whose two capabilities always succeed. -/
def aiOkW : IAIService :=
  { analyze_message := fun _ _ => .ok analysisW
    chat := fun _ _ _ => .ok "Hello!" }

/-- A concrete AI service whose dialogue capability always raises. -/
def aiChatFailW : IAIService :=
  { analyze_message := fun _ _ => .ok analysisW
    chat := fun _ _ _ => .error (.capabilityFailure "chat down") }

/-- A concrete scoring service: the message count as the aggregate value. -/
def scoringW : ScoringService :=
  { calculate_overall_score := fun ms => Int.ofNat ms.length }

/-- A concrete recommendation service: one unit-weight recommendation per
candidate course. -/
def recServiceW : RecommendationService :=
  { generate_recommendations := fun _ cs =>
      cs.map (fun c => { course_id := c.id, weight := 1 }) }

/-- A concrete conversation repository holding one conversation at "c1". -/
def repoW : ConversationRepository :=
  { store := [("c1", convW)], find_by_user_id := fun _ _ _ => [convW] }

/-- The controller the constructor builds from the concrete collaborators. -/
def ctlW : ConversationController :=
  ConversationController.init repoW aiOkW scoringW recServiceW

/-- The constructor-built controller whose dialogue capability raises. -/
def ctlChatFailW : ConversationController :=
  ConversationController.init repoW aiChatFailW scoringW recServiceW

/-- A concrete course catalog: one "N5" course; every `find_by_id` lookup is
absent. -/
def courseRepoW : CourseRepository :=
  { find_by_level := fun _ => [{ id := "k1", level := "N5", title := "Kana" }]
    find_by_id := fun _ => none }

/-- A controller state in which the `course_repo` attribute has been
assigned (as Python allows after construction). -/
def ctlCoursesW : ConversationController :=
  { conversation_repo := repoW, ai_service := aiOkW, scoring_service := scoringW
    recommendation_service := recServiceW, course_repo := some courseRepoW }

/-- The user message produced by the concrete successful run. -/
def userMsgW : Message :=
  { role := "user", content := "hi", timestamp := 1
    analysis := some { grammar := 80, vocabulary := 70, naturalness := 90
                       response_time := some 5 } }

/-- The assistant message produced by the concrete successful run. -/
def aiMsgW : Message :=
  { role := "assistant", content := "Hello!", timestamp := 2 }

/-- The turn result of the concrete successful run. -/
def turnResultW : TurnResult :=
  { user_message := userMsgW, ai_message := aiMsgW, overall_score := 2 }

/-- The store contents after the concrete successful run. -/
def storeAfterW : Store :=
  [("c1", { user_id := "u1", topic := "travel", level := "N5"
            messages := [userMsgW, aiMsgW], score := some 2 })]

/-- The trace of the concrete successful run. -/
def traceW : List Event :=
  [Event.findById "c1", Event.analyzeCall "hi" "N5",
   Event.chatCall [("user", "hi")] "travel" "N5", Event.storeUpdate "c1"]

/-- Reading back the id just written to the store yields the written
conversation; reading after a write at an absent id stays absent. -/
theorem store_find_store_update (s : Store) (id : String) (c : Conversation) :
    store_find (store_update s id c) id = (store_find s id).map (fun _ => c) := by
  induction s with
  | nil => rfl
  | cons p s ih =>
    by_cases h : p.1 == id
    · simp [store_find, store_update, List.find?, h]
    · simpa [store_find, store_update, List.find?, h] using ih

/-- `send_message` when the conversation id is absent: it raises `ValueError`
having performed only the one store read. -/
theorem send_message_eq_not_found (self : ConversationController)
    (conversation_id message_content : String) (response_time : Option Int)
    (t_user t_ai : Nat)
    (hf : store_find self.conversation_repo.store conversation_id = none) :
    send_message self conversation_id message_content response_time t_user t_ai =
      (.error (.valueError ("Conversation " ++ conversation_id ++ " not found")),
       self.conversation_repo.store, [Event.findById conversation_id]) := by
  simp only [send_message, hf]

/-- `send_message` when the Analysis Capability raises: the error propagates,
the store is returned unchanged, and the trace holds the read and the one
analysis call. -/
theorem send_message_eq_analyze_error (self : ConversationController)
    (conversation_id message_content : String) (response_time : Option Int)
    (t_user t_ai : Nat) (conversation : Conversation) (e : PyError)
    (hf : store_find self.conversation_repo.store conversation_id = some conversation)
    (ha : self.ai_service.analyze_message message_content conversation.level = .error e) :
    send_message self conversation_id message_content response_time t_user t_ai =
      (.error e, self.conversation_repo.store,
       [Event.findById conversation_id,
        Event.analyzeCall message_content conversation.level]) := by
  simp only [send_message, hf, ha]

/-- `send_message` when the Dialogue Capability raises: the error propagates,
the store is returned unchanged, and the trace holds the read, the analysis
call and the chat call. -/
theorem send_message_eq_chat_error (self : ConversationController)
    (conversation_id message_content : String) (response_time : Option Int)
    (t_user t_ai : Nat) (conversation : Conversation)
    (analysis_data : AnalysisData) (e : PyError)
    (hf : store_find self.conversation_repo.store conversation_id = some conversation)
    (ha : self.ai_service.analyze_message message_content conversation.level =
      .ok analysis_data)
    (hc : self.ai_service.chat
        ((conversation.add_message
          (user_message_of message_content analysis_data response_time t_user)).get_chat_history)
        conversation.topic conversation.level = .error e) :
    send_message self conversation_id message_content response_time t_user t_ai =
      (.error e, self.conversation_repo.store,
       [Event.findById conversation_id,
        Event.analyzeCall message_content conversation.level,
        Event.chatCall
          ((conversation.add_message
            (user_message_of message_content analysis_data response_time t_user)).get_chat_history)
          conversation.topic conversation.level]) := by
  unfold send_message
  rw [hf]
  dsimp only
  rw [ha]
  dsimp only
  rw [hc]

/-- `send_message` on the success path: the full result, the updated store,
and the four-call trace, as functions of the loaded conversation and the two
capability replies. -/
theorem send_message_eq_ok (self : ConversationController)
    (conversation_id message_content : String) (response_time : Option Int)
    (t_user t_ai : Nat) (conversation : Conversation)
    (analysis_data : AnalysisData) (ai_response : String)
    (hf : store_find self.conversation_repo.store conversation_id = some conversation)
    (ha : self.ai_service.analyze_message message_content conversation.level =
      .ok analysis_data)
    (hc : self.ai_service.chat
        ((conversation.add_message
          (user_message_of message_content analysis_data response_time t_user)).get_chat_history)
        conversation.topic conversation.level = .ok ai_response) :
    send_message self conversation_id message_content response_time t_user t_ai =
      (.ok { user_message := user_message_of message_content analysis_data response_time t_user
             ai_message := ai_message_of ai_response t_ai
             overall_score := self.scoring_service.calculate_overall_score
               (conversation.messages ++
                 [user_message_of message_content analysis_data response_time t_user,
                  ai_message_of ai_response t_ai]) },
       store_update self.conversation_repo.store conversation_id
         { conversation with
           messages := conversation.messages ++
             [user_message_of message_content analysis_data response_time t_user,
              ai_message_of ai_response t_ai]
           score := some (self.scoring_service.calculate_overall_score
             (conversation.messages ++
               [user_message_of message_content analysis_data response_time t_user,
                ai_message_of ai_response t_ai])) },
       [Event.findById conversation_id,
        Event.analyzeCall message_content conversation.level,
        Event.chatCall
          ((conversation.add_message
            (user_message_of message_content analysis_data response_time t_user)).get_chat_history)
          conversation.topic conversation.level,
        Event.storeUpdate conversation_id]) := by
  unfold send_message
  rw [hf]
  dsimp only
  rw [ha]
  dsimp only
  rw [hc]
  dsimp only
  simp [Conversation.add_message, Conversation.update_score]

/-- `get_recommendations` when the conversation id is absent: it raises
`ValueError` having performed only the one store read. -/
theorem get_recommendations_eq_not_found (self : ConversationController)
    (conversation_id : String)
    (hf : store_find self.conversation_repo.store conversation_id = none) :
    get_recommendations self conversation_id =
      (.error (.valueError ("Conversation " ++ conversation_id ++ " not found")),
       self.conversation_repo.store, [Event.findById conversation_id]) := by
  simp only [get_recommendations, hf]

/-- `get_recommendations` when the conversation exists but the `course_repo`
attribute was never assigned: the attribute read raises `AttributeError`
after the one store read, before any other external call. -/
theorem get_recommendations_eq_attr_error (self : ConversationController)
    (conversation_id : String) (conversation : Conversation)
    (hf : store_find self.conversation_repo.store conversation_id = some conversation)
    (hcr : self.course_repo = none) :
    get_recommendations self conversation_id =
      (.error (.attributeError "course_repo"),
       self.conversation_repo.store, [Event.findById conversation_id]) := by
  unfold get_recommendations
  rw [hf]
  dsimp only
  rw [hcr]

/-- `get_recommendations` on the success path (conversation present and the
course-repository attribute present): the joined result, the updated store
and the full trace. -/
theorem get_recommendations_eq_ok (self : ConversationController)
    (conversation_id : String) (conversation : Conversation)
    (course_repo : CourseRepository)
    (hf : store_find self.conversation_repo.store conversation_id = some conversation)
    (hcr : self.course_repo = some course_repo) :
    get_recommendations self conversation_id =
      (.ok ((self.recommendation_service.generate_recommendations conversation
          (course_repo.find_by_level conversation.level)).map (fun r =>
            { course_id := r.course_id, weight := r.weight,
              course := course_repo.find_by_id r.course_id })),
       store_update self.conversation_repo.store conversation_id
         { conversation with
           recommendations := conversation.recommendations ++
             self.recommendation_service.generate_recommendations conversation
               (course_repo.find_by_level conversation.level) },
       [Event.findById conversation_id, Event.findByLevel conversation.level,
        Event.genRecsCall, Event.storeUpdate conversation_id] ++
         (self.recommendation_service.generate_recommendations conversation
           (course_repo.find_by_level conversation.level)).map
             (fun r => Event.courseFindById r.course_id)) := by
  unfold get_recommendations
  rw [hf]
  dsimp only
  rw [hcr]
  dsimp only
  simp [Conversation.add_recommendations]

/-- Inversion for a successful `send_message` run: the loaded conversation
and the two capability replies exist, and they determine the result, the
resulting store, and the trace exactly. -/
theorem send_message_ok_inv (self : ConversationController)
    (conversation_id message_content : String) (response_time : Option Int)
    (t_user t_ai : Nat) (r : TurnResult) (st : Store) (evs : List Event)
    (hrun : send_message self conversation_id message_content response_time t_user t_ai
      = (.ok r, st, evs)) :
    ∃ conversation analysis_data ai_response,
      store_find self.conversation_repo.store conversation_id = some conversation ∧
      self.ai_service.analyze_message message_content conversation.level =
        .ok analysis_data ∧
      self.ai_service.chat
        ((conversation.add_message
          (user_message_of message_content analysis_data response_time t_user)).get_chat_history)
        conversation.topic conversation.level = .ok ai_response ∧
      r = { user_message := user_message_of message_content analysis_data response_time t_user
            ai_message := ai_message_of ai_response t_ai
            overall_score := self.scoring_service.calculate_overall_score
              (conversation.messages ++
                [user_message_of message_content analysis_data response_time t_user,
                 ai_message_of ai_response t_ai]) } ∧
      st = store_update self.conversation_repo.store conversation_id
        { conversation with
          messages := conversation.messages ++
            [user_message_of message_content analysis_data response_time t_user,
             ai_message_of ai_response t_ai]
          score := some (self.scoring_service.calculate_overall_score
            (conversation.messages ++
              [user_message_of message_content analysis_data response_time t_user,
               ai_message_of ai_response t_ai])) } ∧
      evs = [Event.findById conversation_id,
             Event.analyzeCall message_content conversation.level,
             Event.chatCall
               ((conversation.add_message
                 (user_message_of message_content analysis_data response_time t_user)).get_chat_history)
               conversation.topic conversation.level,
             Event.storeUpdate conversation_id] := by
  cases hf : store_find self.conversation_repo.store conversation_id with
  | none =>
      rw [send_message_eq_not_found self conversation_id message_content response_time
        t_user t_ai hf] at hrun
      simp at hrun
  | some conversation =>
      cases ha : self.ai_service.analyze_message message_content conversation.level with
      | error e =>
          rw [send_message_eq_analyze_error self conversation_id message_content
            response_time t_user t_ai conversation e hf ha] at hrun
          simp at hrun
      | ok analysis_data =>
          cases hc : self.ai_service.chat
              ((conversation.add_message
                (user_message_of message_content analysis_data response_time t_user)).get_chat_history)
              conversation.topic conversation.level with
          | error e =>
              rw [send_message_eq_chat_error self conversation_id message_content
                response_time t_user t_ai conversation analysis_data e hf ha hc] at hrun
              simp at hrun
          | ok ai_response =>
              rw [send_message_eq_ok self conversation_id message_content response_time
                t_user t_ai conversation analysis_data ai_response hf ha hc] at hrun
              simp only [Prod.mk.injEq, Except.ok.injEq] at hrun
              obtain ⟨h1, h2, h3⟩ := hrun
              exact ⟨conversation, analysis_data, ai_response, rfl, ha, hc,
                h1.symm, h2.symm, h3.symm⟩

/-- Any `send_message` run that surfaces an error — whichever step failed —
returns the store unchanged and performed zero store writes. -/
theorem send_message_error_store_unchanged (self : ConversationController)
    (conversation_id message_content : String) (response_time : Option Int)
    (t_user t_ai : Nat) (e : PyError) (st : Store) (evs : List Event)
    (hrun : send_message self conversation_id message_content response_time t_user t_ai
      = (.error e, st, evs)) :
    st = self.conversation_repo.store ∧ count_store_updates evs = 0 := by
  cases hf : store_find self.conversation_repo.store conversation_id with
  | none =>
      rw [send_message_eq_not_found self conversation_id message_content response_time
        t_user t_ai hf] at hrun
      simp only [Prod.mk.injEq] at hrun
      obtain ⟨-, h2, h3⟩ := hrun
      exact ⟨h2.symm, h3 ▸ rfl⟩
  | some conversation =>
      cases ha : self.ai_service.analyze_message message_content conversation.level with
      | error e0 =>
          rw [send_message_eq_analyze_error self conversation_id message_content
            response_time t_user t_ai conversation e0 hf ha] at hrun
          simp only [Prod.mk.injEq] at hrun
          obtain ⟨-, h2, h3⟩ := hrun
          exact ⟨h2.symm, h3 ▸ rfl⟩
      | ok analysis_data =>
          cases hc : self.ai_service.chat
              ((conversation.add_message
                (user_message_of message_content analysis_data response_time t_user)).get_chat_history)
              conversation.topic conversation.level with
          | error e0 =>
              rw [send_message_eq_chat_error self conversation_id message_content
                response_time t_user t_ai conversation analysis_data e0 hf ha hc] at hrun
              simp only [Prod.mk.injEq] at hrun
              obtain ⟨-, h2, h3⟩ := hrun
              exact ⟨h2.symm, h3 ▸ rfl⟩
          | ok ai_response =>
              rw [send_message_eq_ok self conversation_id message_content response_time
                t_user t_ai conversation analysis_data ai_response hf ha hc] at hrun
              simp at hrun

/-- The chat-history view after appending one message is the previous view
with that message's (role, content) pair at the end. -/
theorem get_chat_history_append (c : Conversation) (m : Message) :
    (c.add_message m).get_chat_history =
      c.messages.map (fun x => (x.role, x.content)) ++ [(m.role, m.content)] := by
  simp [Conversation.add_message, Conversation.get_chat_history]

/-- `count_store_updates` distributes over trace concatenation. -/
theorem count_store_updates_append (l1 l2 : List Event) :
    count_store_updates (l1 ++ l2) = count_store_updates l1 + count_store_updates l2 := by
  simp [count_store_updates, List.filter_append]

/-- Course-detail lookups contribute no store updates to a trace. -/
theorem count_store_updates_course_lookups (recs : List Recommendation) :
    count_store_updates (recs.map (fun r => Event.courseFindById r.course_id)) = 0 := by
  induction recs with
  | nil => rfl
  | cons r recs ih => simp [count_store_updates, List.filter] at ih ⊢

/-- C1: for every `send_message` call in which the Dialogue Capability
(`ai_service.chat`) raises, the error propagates and the Conversation Store
is not written at all: the resulting store is the store from before the call
and the trace holds zero store updates, so the in-memory user message and
its analysis are discarded.  The final conjunct extends this to a failure in
any step before the single persistence step: every erroring `send_message`
run leaves the store untouched. -/
theorem c1_chat_failure_leaves_store_untouched
    (self : ConversationController) (conversation_id message_content : String)
    (response_time : Option Int) (t_user t_ai : Nat) (conversation : Conversation)
    (analysis_data : AnalysisData) (e : PyError)
    (hf : store_find self.conversation_repo.store conversation_id = some conversation)
    (ha : self.ai_service.analyze_message message_content conversation.level =
      .ok analysis_data)
    (hc : self.ai_service.chat
        ((conversation.add_message
          (user_message_of message_content analysis_data response_time t_user)).get_chat_history)
        conversation.topic conversation.level = .error e) :
    send_message self conversation_id message_content response_time t_user t_ai =
      (.error e, self.conversation_repo.store,
       [Event.findById conversation_id,
        Event.analyzeCall message_content conversation.level,
        Event.chatCall
          ((conversation.add_message
            (user_message_of message_content analysis_data response_time t_user)).get_chat_history)
          conversation.topic conversation.level]) ∧
    count_store_updates
      [Event.findById conversation_id,
       Event.analyzeCall message_content conversation.level,
       Event.chatCall
         ((conversation.add_message
           (user_message_of message_content analysis_data response_time t_user)).get_chat_history)
         conversation.topic conversation.level] = 0 ∧
    (∀ (other : ConversationController) (cid mc : String) (rt : Option Int)
       (tu ta : Nat) (e' : PyError) (st' : Store) (evs' : List Event),
      send_message other cid mc rt tu ta = (.error e', st', evs') →
      st' = other.conversation_repo.store ∧ count_store_updates evs' = 0) :=
  ⟨send_message_eq_chat_error self conversation_id message_content response_time
     t_user t_ai conversation analysis_data e hf ha hc, rfl,
   fun other cid mc rt tu ta e' st' evs' hrun =>
     send_message_error_store_unchanged other cid mc rt tu ta e' st' evs' hrun⟩

/-- C1 witness: the theorem applied to a concrete controller whose dialogue
capability raises on a stored conversation. -/
theorem c1_witness :
    send_message ctlChatFailW "c1" "hi" (some 5) 1 2 =
      (.error (.capabilityFailure "chat down"), ctlChatFailW.conversation_repo.store,
       [Event.findById "c1",
        Event.analyzeCall "hi" convW.level,
        Event.chatCall
          ((convW.add_message (user_message_of "hi" analysisW (some 5) 1)).get_chat_history)
          convW.topic convW.level]) :=
  (c1_chat_failure_leaves_store_untouched ctlChatFailW "c1" "hi" (some 5) 1 2 convW
    analysisW (.capabilityFailure "chat down") rfl rfl rfl).1

/-- C5: `send_message` against a conversation id absent from the store fails
with the not-found `ValueError`, performs zero store writes and zero
Analysis and Dialogue Capability calls, and reads the store exactly once
(the failure is fatal, with no retry). -/
theorem c5_not_found_fails_without_side_effects
    (self : ConversationController) (conversation_id message_content : String)
    (response_time : Option Int) (t_user t_ai : Nat)
    (hf : store_find self.conversation_repo.store conversation_id = none) :
    ∃ evs,
      send_message self conversation_id message_content response_time t_user t_ai =
        (.error (.valueError ("Conversation " ++ conversation_id ++ " not found")),
         self.conversation_repo.store, evs) ∧
      count_store_updates evs = 0 ∧ count_analyze_calls evs = 0 ∧
      count_chat_calls evs = 0 ∧ count_find_by_id evs = 1 :=
  ⟨[Event.findById conversation_id],
   send_message_eq_not_found self conversation_id message_content response_time
     t_user t_ai hf, rfl, rfl, rfl, rfl⟩

/-- C5 witness: the theorem applied to a concrete controller and an id ("zz")
absent from its store. -/
theorem c5_witness :
    ∃ evs,
      send_message ctlW "zz" "hi" none 1 2 =
        (.error (.valueError ("Conversation " ++ "zz" ++ " not found")),
         ctlW.conversation_repo.store, evs) ∧
      count_store_updates evs = 0 ∧ count_analyze_calls evs = 0 ∧
      count_chat_calls evs = 0 ∧ count_find_by_id evs = 1 :=
  c5_not_found_fails_without_side_effects ctlW "zz" "hi" none 1 2 rfl

/-- C3: evaluation of the code at the claimed scenario.  For a controller
built by `__init__` and every conversation id present in the store,
`get_recommendations` raises `AttributeError` on the never-assigned
`course_repo` attribute directly after loading the conversation: the
Recommendation Engine is never invoked, nothing is appended or persisted
(zero store writes), and no joined recommendations are returned — the
claimed load-generate-append-persist-join flow never happens. -/
theorem c3_get_recommendations_always_raises
    (repo : ConversationRepository) (ai : IAIService) (sc : ScoringService)
    (rs : RecommendationService) (conversation_id : String) (conversation : Conversation)
    (hf : store_find repo.store conversation_id = some conversation) :
    get_recommendations (ConversationController.init repo ai sc rs) conversation_id =
      (.error (.attributeError "course_repo"), repo.store,
       [Event.findById conversation_id]) ∧
    count_gen_recs [Event.findById conversation_id] = 0 ∧
    count_store_updates [Event.findById conversation_id] = 0 :=
  ⟨get_recommendations_eq_attr_error (ConversationController.init repo ai sc rs)
     conversation_id conversation hf rfl, rfl, rfl⟩

/-- C3 witness: the evaluation theorem applied at a concrete constructor-built
controller and the stored id "c1". -/
theorem c3_witness :
    get_recommendations (ConversationController.init repoW aiOkW scoringW recServiceW) "c1" =
      (.error (.attributeError "course_repo"), repoW.store,
       [Event.findById "c1"]) ∧
    count_gen_recs [Event.findById "c1"] = 0 ∧
    count_store_updates [Event.findById "c1"] = 0 :=
  c3_get_recommendations_always_raises repoW aiOkW scoringW recServiceW "c1" convW rfl

/-- C4: the constructor assigns exactly the four injected collaborators —
`conversation_repo`, `ai_service`, `scoring_service`,
`recommendation_service` — and no course-repository attribute
(`course_repo = none`); consequently every `get_recommendations` call whose
conversation id exists fails with the `AttributeError` on `course_repo`,
with zero Recommendation Engine invocations and zero store writes. -/
theorem c4_constructor_omits_course_repo
    (repo : ConversationRepository) (ai : IAIService) (sc : ScoringService)
    (rs : RecommendationService) (conversation_id : String) (conversation : Conversation)
    (hf : store_find repo.store conversation_id = some conversation) :
    (ConversationController.init repo ai sc rs).conversation_repo = repo ∧
    (ConversationController.init repo ai sc rs).ai_service = ai ∧
    (ConversationController.init repo ai sc rs).scoring_service = sc ∧
    (ConversationController.init repo ai sc rs).recommendation_service = rs ∧
    (ConversationController.init repo ai sc rs).course_repo = none ∧
    ∃ evs,
      get_recommendations (ConversationController.init repo ai sc rs) conversation_id =
        (.error (.attributeError "course_repo"), repo.store, evs) ∧
      count_gen_recs evs = 0 ∧ count_store_updates evs = 0 :=
  ⟨rfl, rfl, rfl, rfl, rfl,
   ⟨[Event.findById conversation_id],
    get_recommendations_eq_attr_error (ConversationController.init repo ai sc rs)
      conversation_id conversation hf rfl, rfl, rfl⟩⟩

/-- C4 witness: the theorem applied at concrete collaborators and the stored
id "c1". -/
theorem c4_witness :
    (ConversationController.init repoW aiChatFailW scoringW recServiceW).conversation_repo
      = repoW ∧
    (ConversationController.init repoW aiChatFailW scoringW recServiceW).ai_service
      = aiChatFailW ∧
    (ConversationController.init repoW aiChatFailW scoringW recServiceW).scoring_service
      = scoringW ∧
    (ConversationController.init repoW aiChatFailW scoringW recServiceW).recommendation_service
      = recServiceW ∧
    (ConversationController.init repoW aiChatFailW scoringW recServiceW).course_repo = none ∧
    ∃ evs,
      get_recommendations (ConversationController.init repoW aiChatFailW scoringW recServiceW)
          "c1" =
        (.error (.attributeError "course_repo"), repoW.store, evs) ∧
      count_gen_recs evs = 0 ∧ count_store_updates evs = 0 :=
  c4_constructor_omits_course_repo repoW aiChatFailW scoringW recServiceW "c1" convW rfl

/-- C9 counterexample: with skip = -1 (violating skip ≥ 0) and limit = 0
(violating limit > 0), `get_user_conversations` is not rejected with a
validation error: it returns the store's answer normally, and the
Conversation Store is called (the `find_by_user_id` query appears in the
trace) — so the malformed pagination arguments reach the store. -/
theorem c9_counterexample :
    get_user_conversations ctlW "u1" (-1) 0 =
      (.ok [convW], [Event.findByUserId "u1" (-1) 0]) ∧
    (-1 : Int) < 0 ∧ (0 : Int) ≤ 0 :=
  ⟨rfl, by decide, by decide⟩

/-- C9 amended: `get_user_conversations` performs no validation of its
pagination arguments: for every skip and limit — negative or zero included —
it forwards (user_id, skip, limit) unchanged to the store's
`find_by_user_id` in exactly one store query and returns the store's result
without raising. -/
theorem c9_pagination_passthrough_unvalidated (self : ConversationController)
    (user_id : String) (skip limit : Int) :
    get_user_conversations self user_id skip limit =
      (.ok (self.conversation_repo.find_by_user_id user_id skip limit),
       [Event.findByUserId user_id skip limit]) := rfl

/-- C2: after every successful `send_message`, the stored conversation's
message sequence is the previous sequence extended by exactly two entries —
first the returned user message (role "user", analysis attached), then the
returned assistant message (role "assistant", no analysis), in that order —
and its score is replaced by the scoring service's result over the full
updated sequence, which is also the score returned to the caller. -/
theorem c2_success_appends_two_and_rescores
    (self : ConversationController) (conversation_id message_content : String)
    (response_time : Option Int) (t_user t_ai : Nat) (conversation : Conversation)
    (r : TurnResult) (st : Store) (evs : List Event)
    (hf : store_find self.conversation_repo.store conversation_id = some conversation)
    (hrun : send_message self conversation_id message_content response_time t_user t_ai
      = (.ok r, st, evs)) :
    ∃ conv2,
      store_find st conversation_id = some conv2 ∧
      conv2.messages = conversation.messages ++ [r.user_message, r.ai_message] ∧
      r.user_message.role = "user" ∧ r.user_message.analysis.isSome = true ∧
      r.ai_message.role = "assistant" ∧ r.ai_message.analysis = none ∧
      conv2.score = some (self.scoring_service.calculate_overall_score conv2.messages) ∧
      r.overall_score = self.scoring_service.calculate_overall_score conv2.messages := by
  obtain ⟨conv0, analysis_data, ai_response, hf', ha, hc, hr, hst, hevs⟩ :=
    send_message_ok_inv self conversation_id message_content response_time t_user t_ai
      r st evs hrun
  rw [hf] at hf'
  obtain rfl := Option.some.inj hf'
  subst hr hst
  refine ⟨{ conversation with
      messages := conversation.messages ++
        [user_message_of message_content analysis_data response_time t_user,
         ai_message_of ai_response t_ai]
      score := some (self.scoring_service.calculate_overall_score
        (conversation.messages ++
          [user_message_of message_content analysis_data response_time t_user,
           ai_message_of ai_response t_ai])) },
    ?_, rfl, rfl, rfl, rfl, rfl, rfl, rfl⟩
  rw [store_find_store_update, hf]
  rfl

/-- C2 witness: the theorem applied to the concrete successful run. -/
theorem c2_witness :
    ∃ conv2,
      store_find storeAfterW "c1" = some conv2 ∧
      conv2.messages = convW.messages ++ [turnResultW.user_message, turnResultW.ai_message] ∧
      turnResultW.user_message.role = "user" ∧
      turnResultW.user_message.analysis.isSome = true ∧
      turnResultW.ai_message.role = "assistant" ∧ turnResultW.ai_message.analysis = none ∧
      conv2.score = some (ctlW.scoring_service.calculate_overall_score conv2.messages) ∧
      turnResultW.overall_score = ctlW.scoring_service.calculate_overall_score conv2.messages :=
  c2_success_appends_two_and_rescores ctlW "c1" "hi" (some 5) 1 2 convW turnResultW
    storeAfterW traceW rfl rfl

/-- C6: every successful `send_message` performs exactly one Analysis
Capability call, one Dialogue Capability call and one store update; the
trace is exactly the store read, the analysis call, the chat call and the
store update, in that order — analysis strictly before chat, the store
update strictly after both. -/
theorem c6_success_exact_call_sequence
    (self : ConversationController) (conversation_id message_content : String)
    (response_time : Option Int) (t_user t_ai : Nat)
    (r : TurnResult) (st : Store) (evs : List Event)
    (hrun : send_message self conversation_id message_content response_time t_user t_ai
      = (.ok r, st, evs)) :
    ∃ lv history topic,
      evs = [Event.findById conversation_id, Event.analyzeCall message_content lv,
             Event.chatCall history topic lv, Event.storeUpdate conversation_id] ∧
      count_analyze_calls evs = 1 ∧ count_chat_calls evs = 1 ∧
      count_store_updates evs = 1 := by
  obtain ⟨conversation, analysis_data, ai_response, hf, ha, hc, hr, hst, hevs⟩ :=
    send_message_ok_inv self conversation_id message_content response_time t_user t_ai
      r st evs hrun
  subst hevs
  exact ⟨conversation.level,
    (conversation.add_message
      (user_message_of message_content analysis_data response_time t_user)).get_chat_history,
    conversation.topic, rfl, rfl, rfl, rfl⟩

/-- C6 witness: the theorem applied to the concrete successful run. -/
theorem c6_witness :
    ∃ lv history topic,
      traceW = [Event.findById "c1", Event.analyzeCall "hi" lv,
                Event.chatCall history topic lv, Event.storeUpdate "c1"] ∧
      count_analyze_calls traceW = 1 ∧ count_chat_calls traceW = 1 ∧
      count_store_updates traceW = 1 :=
  c6_success_exact_call_sequence ctlW "c1" "hi" (some 5) 1 2 turnResultW
    storeAfterW traceW rfl

/-- C7: whenever `send_message` reaches the Dialogue Capability (the
conversation was found and analysis succeeded) — whether the run then
succeeds or fails — the chat call receives the ordered (role, content) pairs
of every message of the conversation so far, including the user message
appended in this same call as its last entry, together with the
conversation's topic and level. -/
theorem c7_chat_receives_full_history
    (self : ConversationController) (conversation_id message_content : String)
    (response_time : Option Int) (t_user t_ai : Nat) (conversation : Conversation)
    (analysis_data : AnalysisData)
    (res : Except PyError TurnResult) (st : Store) (evs : List Event)
    (hf : store_find self.conversation_repo.store conversation_id = some conversation)
    (ha : self.ai_service.analyze_message message_content conversation.level =
      .ok analysis_data)
    (hrun : send_message self conversation_id message_content response_time t_user t_ai
      = (res, st, evs)) :
    Event.chatCall
      (conversation.messages.map (fun m => (m.role, m.content)) ++
        [("user", message_content)])
      conversation.topic conversation.level ∈ evs := by
  have hhist : (conversation.add_message
      (user_message_of message_content analysis_data response_time t_user)).get_chat_history =
      conversation.messages.map (fun m => (m.role, m.content)) ++
        [("user", message_content)] := by
    simp [Conversation.add_message, Conversation.get_chat_history, user_message_of]
  cases hc : self.ai_service.chat
      ((conversation.add_message
        (user_message_of message_content analysis_data response_time t_user)).get_chat_history)
      conversation.topic conversation.level with
  | error e =>
      rw [send_message_eq_chat_error self conversation_id message_content response_time
        t_user t_ai conversation analysis_data e hf ha hc] at hrun
      simp only [Prod.mk.injEq] at hrun
      obtain ⟨-, -, hevs⟩ := hrun
      rw [← hevs, hhist]
      simp
  | ok ai_response =>
      rw [send_message_eq_ok self conversation_id message_content response_time
        t_user t_ai conversation analysis_data ai_response hf ha hc] at hrun
      simp only [Prod.mk.injEq] at hrun
      obtain ⟨-, -, hevs⟩ := hrun
      rw [← hevs, hhist]
      simp

/-- C7 witness: the theorem applied to the concrete successful run: the chat
call of that run carries the (role, content) view ending in the new user
message, with the conversation's topic and level. -/
theorem c7_witness :
    Event.chatCall
      (convW.messages.map (fun m => (m.role, m.content)) ++ [("user", "hi")])
      convW.topic convW.level ∈ traceW :=
  c7_chat_receives_full_history ctlW "c1" "hi" (some 5) 1 2 convW analysisW
    (.ok turnResultW) storeAfterW traceW rfl rfl rfl

/-- C8: the user message constructed by every successful `send_message` has
role "user", the incoming content, the current-time timestamp, and an
attached analysis that carries exactly the supplied optional response time:
present when `response_time` was supplied, absent when it was not. -/
theorem c8_user_message_carries_response_time
    (self : ConversationController) (conversation_id message_content : String)
    (response_time : Option Int) (t_user t_ai : Nat)
    (r : TurnResult) (st : Store) (evs : List Event)
    (hrun : send_message self conversation_id message_content response_time t_user t_ai
      = (.ok r, st, evs)) :
    r.user_message.role = "user" ∧ r.user_message.content = message_content ∧
    r.user_message.timestamp = t_user ∧
    ∃ a, r.user_message.analysis = some a ∧ a.response_time = response_time := by
  obtain ⟨conversation, analysis_data, ai_response, hf, ha, hc, hr, -, -⟩ :=
    send_message_ok_inv self conversation_id message_content response_time t_user t_ai
      r st evs hrun
  subst hr
  exact ⟨rfl, rfl, rfl, _, rfl, rfl⟩

/-- C8 witness: the theorem applied to the concrete successful run, where the
caller supplied a response time of 5 ms. -/
theorem c8_witness :
    turnResultW.user_message.role = "user" ∧ turnResultW.user_message.content = "hi" ∧
    turnResultW.user_message.timestamp = 1 ∧
    ∃ a, turnResultW.user_message.analysis = some a ∧ a.response_time = some 5 :=
  c8_user_message_carries_response_time ctlW "c1" "hi" (some 5) 1 2 turnResultW
    storeAfterW traceW rfl

/-- C10: when the course-repository attribute is present, for every generated
recommendation whose course id is absent from the catalog the joined result
still contains that recommendation's fields with `course = none` — the call
succeeds rather than raising — and every generated recommendation, whether
its course is found or not, is appended after the conversation's existing
recommendations and persisted with the single store update. -/
theorem c10_absent_course_joined_as_none
    (self : ConversationController) (conversation_id : String)
    (conversation : Conversation) (course_repo : CourseRepository)
    (recs : List Recommendation)
    (hcr : self.course_repo = some course_repo)
    (hf : store_find self.conversation_repo.store conversation_id = some conversation)
    (hrecs : recs = self.recommendation_service.generate_recommendations conversation
      (course_repo.find_by_level conversation.level)) :
    ∃ st evs,
      get_recommendations self conversation_id =
        (.ok (recs.map (fun r =>
          { course_id := r.course_id, weight := r.weight,
            course := course_repo.find_by_id r.course_id })), st, evs) ∧
      store_find st conversation_id = some
        { conversation with
          recommendations := conversation.recommendations ++ recs } ∧
      count_store_updates evs = 1 ∧
      ∀ r ∈ recs, course_repo.find_by_id r.course_id = none →
        ({ course_id := r.course_id, weight := r.weight, course := none } :
          DetailedRecommendation) ∈ recs.map (fun r2 =>
            { course_id := r2.course_id, weight := r2.weight,
              course := course_repo.find_by_id r2.course_id }) := by
  subst hrecs
  refine ⟨_, _,
    get_recommendations_eq_ok self conversation_id conversation course_repo hf hcr,
    ?_, ?_, ?_⟩
  · rw [store_find_store_update, hf]
    rfl
  · rw [count_store_updates_append, count_store_updates_course_lookups]
    rfl
  · intro r hr hnone
    exact List.mem_map.mpr ⟨r, hr, by simp [hnone]⟩

/-- C10 witness: the theorem applied to a concrete controller whose
course-repository attribute is assigned, over a catalog in which every
course lookup is absent: the one generated recommendation is joined with
`course = none`, appended and persisted. -/
theorem c10_witness :
    ∃ st evs,
      get_recommendations ctlCoursesW "c1" =
        (.ok (([{ course_id := "k1", weight := 1 }] : List Recommendation).map (fun r =>
          { course_id := r.course_id, weight := r.weight,
            course := courseRepoW.find_by_id r.course_id })), st, evs) ∧
      store_find st "c1" = some
        { convW with
          recommendations := convW.recommendations ++ [{ course_id := "k1", weight := 1 }] } ∧
      count_store_updates evs = 1 ∧
      ∀ r ∈ ([{ course_id := "k1", weight := 1 }] : List Recommendation),
        courseRepoW.find_by_id r.course_id = none →
        ({ course_id := r.course_id, weight := r.weight, course := none } :
          DetailedRecommendation) ∈
          ([{ course_id := "k1", weight := 1 }] : List Recommendation).map (fun r2 =>
            { course_id := r2.course_id, weight := r2.weight,
              course := courseRepoW.find_by_id r2.course_id }) :=
  c10_absent_course_joined_as_none ctlCoursesW "c1" convW courseRepoW
    [{ course_id := "k1", weight := 1 }] rfl rfl rfl

end ChatBot
